import Mathlib

/-!
Verification development for the MT7927 WiFi bring-up driver.

The definitions below are a shallow embedding of the C sources:
  src/mt7927.h        (register address translation, remap windows)
  src/mt7927_regs.h   (register constants, fixed mapping table)
  src/mt7927_dma.c    (queue allocation, TX submit, DMA init/enable)
  src/mt7927_pci.c    (power ownership handshake, WFSYS reset)
  src/mt7927_mcu.c    (MCU messages, firmware download sequencing)

Machine integers are modelled as Nat with explicit arithmetic; all register
values are 32-bit quantities.  Hardware-driven register reads (values that
change under the device, e.g. polled status bits) are modelled by a read
oracle, a function from the read index to the value returned; pure
software-visible register state is modelled by an explicit register file.
-/

namespace MT7927

/-! ## Register constants (src/mt7927_regs.h) -/

def MT_HIF_REMAP_L1 : Nat := 0x155024
def MT_HIF_REMAP_BASE_L1 : Nat := 0x130000
def MT_HIF_REMAP_L2 : Nat := 0x0120
def MT_HIF_REMAP_BASE_L2 : Nat := 0x18500000

/-- One entry of the fixed register mapping table (struct mt7927_reg_map). -/
structure RegMap where
  phys : Nat
  maps : Nat
  size : Nat
deriving DecidableEq, Repr

/-- The fixed register mapping table from src/mt7927_regs.h
(mt7927_fixed_map), without the all-zero end marker:
the C scan stops at the entry with size 0, so the list holds
exactly the entries the scan can return. -/
def mt7927_fixed_map : List RegMap := [
  ⟨0x830c0000, 0x000000, 0x0001000⟩,
  ⟨0x54000000, 0x002000, 0x0001000⟩,
  ⟨0x55000000, 0x003000, 0x0001000⟩,
  ⟨0x56000000, 0x004000, 0x0001000⟩,
  ⟨0x57000000, 0x005000, 0x0001000⟩,
  ⟨0x58000000, 0x006000, 0x0001000⟩,
  ⟨0x59000000, 0x007000, 0x0001000⟩,
  ⟨0x820c0000, 0x008000, 0x0004000⟩,
  ⟨0x820c8000, 0x00c000, 0x0002000⟩,
  ⟨0x820cc000, 0x00e000, 0x0002000⟩,
  ⟨0x74030000, 0x010000, 0x0001000⟩,
  ⟨0x820e0000, 0x020000, 0x0000400⟩,
  ⟨0x820e1000, 0x020400, 0x0000200⟩,
  ⟨0x820e2000, 0x020800, 0x0000400⟩,
  ⟨0x820e3000, 0x020c00, 0x0000400⟩,
  ⟨0x820e4000, 0x021000, 0x0000400⟩,
  ⟨0x820e5000, 0x021400, 0x0000800⟩,
  ⟨0x820ce000, 0x021c00, 0x0000200⟩,
  ⟨0x820e7000, 0x021e00, 0x0000200⟩,
  ⟨0x820cf000, 0x022000, 0x0001000⟩,
  ⟨0x820e9000, 0x023400, 0x0000200⟩,
  ⟨0x820ea000, 0x024000, 0x0000200⟩,
  ⟨0x820eb000, 0x024200, 0x0000400⟩,
  ⟨0x820ec000, 0x024600, 0x0000200⟩,
  ⟨0x820ed000, 0x024800, 0x0000800⟩,
  ⟨0x820ca000, 0x026000, 0x0002000⟩,
  ⟨0x820d0000, 0x030000, 0x0010000⟩,
  ⟨0x40000000, 0x070000, 0x0010000⟩,
  ⟨0x00400000, 0x080000, 0x0010000⟩,
  ⟨0x00410000, 0x090000, 0x0010000⟩,
  ⟨0x820f0000, 0x0a0000, 0x0000400⟩,
  ⟨0x820f1000, 0x0a0600, 0x0000200⟩,
  ⟨0x820f2000, 0x0a0800, 0x0000400⟩,
  ⟨0x820f3000, 0x0a0c00, 0x0000400⟩,
  ⟨0x820f4000, 0x0a1000, 0x0000400⟩,
  ⟨0x820f5000, 0x0a1400, 0x0000800⟩,
  ⟨0x820f7000, 0x0a1e00, 0x0000200⟩,
  ⟨0x820f9000, 0x0a3400, 0x0000200⟩,
  ⟨0x820fa000, 0x0a4000, 0x0000200⟩,
  ⟨0x820fb000, 0x0a4200, 0x0000400⟩,
  ⟨0x820fc000, 0x0a4600, 0x0000200⟩,
  ⟨0x820fd000, 0x0a4800, 0x0000800⟩,
  ⟨0x820c4000, 0x0a8000, 0x0004000⟩,
  ⟨0x820b0000, 0x0ae000, 0x0001000⟩,
  ⟨0x80020000, 0x0b0000, 0x0010000⟩,
  ⟨0x81020000, 0x0c0000, 0x0010000⟩,
  ⟨0x7c020000, 0x0d0000, 0x0010000⟩,
  ⟨0x7c060000, 0x0e0000, 0x0010000⟩,
  ⟨0x7c000000, 0x0f0000, 0x0010000⟩,
  ⟨0x70020000, 0x1f0000, 0x0010000⟩,
  ⟨0x7c500000, 0x060000, 0x2000000⟩]

/-- First fixed-map entry whose window contains addr, mirroring the scan in
mt7927_reg_addr: the entry is skipped when addr < phys or addr - phys ≥ size. -/
def findWindow (addr : Nat) : Option RegMap :=
  mt7927_fixed_map.find? (fun e => decide (e.phys ≤ addr) && decide (addr - e.phys < e.size))

/-! ## Device register state (src/mt7927.h) -/

/-- Software-visible device state: the BAR0 register file (offset to 32-bit
value) plus the two remap backup slots of struct mt7927_dev. -/
structure DevState where
  regs : Nat → Nat
  backup_l1 : Nat
  backup_l2 : Nat

/-- mt7927_rr_raw: raw register read at a BAR0 offset. -/
def mt7927_rr_raw (s : DevState) (offset : Nat) : Nat := s.regs offset

/-- mt7927_wr_raw: raw register write at a BAR0 offset. -/
def mt7927_wr_raw (s : DevState) (offset val : Nat) : DevState :=
  { s with regs := fun o => if o = offset then val else s.regs o }

/-- mt7927_reg_map_l1: save the remap-control register into backup_l1 and
program the high 16 bits of addr into its base field
(FIELD_GET of GENMASK 31 16 is division by 2 to the 16, the masked insert is
reg mod 2 to the 16 plus base times 2 to the 16); returns the L1 aperture
offset for the low 16 bits of addr. -/
def mt7927_reg_map_l1 (s : DevState) (addr : Nat) : DevState × Nat :=
  let offset := addr % 65536
  let base := (addr / 65536) % 65536
  let s1 : DevState := { s with backup_l1 := mt7927_rr_raw s MT_HIF_REMAP_L1 }
  let s2 := mt7927_wr_raw s1 MT_HIF_REMAP_L1
    (mt7927_rr_raw s1 MT_HIF_REMAP_L1 % 65536 + base * 65536)
  (s2, MT_HIF_REMAP_BASE_L1 + offset)

/-- mt7927_reg_map_l2: save the remap-control register into backup_l2,
program the L1 base field with the base of MT_HIF_REMAP_BASE_L2, then write
addr into the L2 remap register; returns the L1 aperture base. -/
def mt7927_reg_map_l2 (s : DevState) (addr : Nat) : DevState × Nat :=
  let base := (MT_HIF_REMAP_BASE_L2 / 65536) % 65536
  let s1 : DevState := { s with backup_l2 := mt7927_rr_raw s MT_HIF_REMAP_L1 }
  let s2 := mt7927_wr_raw s1 MT_HIF_REMAP_L1
    (mt7927_rr_raw s1 MT_HIF_REMAP_L1 % 65536 + base * 65536)
  let s3 := mt7927_wr_raw s2 MT_HIF_REMAP_L2 addr
  (s3, MT_HIF_REMAP_BASE_L1)

/-- mt7927_reg_remap_restore: write each non-zero backup back to its remap
register and clear the backup slot. -/
def mt7927_reg_remap_restore (s : DevState) : DevState :=
  let s1 := if s.backup_l1 ≠ 0 then
    { mt7927_wr_raw s MT_HIF_REMAP_L1 s.backup_l1 with backup_l1 := 0 }
  else s
  if s1.backup_l2 ≠ 0 then
    { mt7927_wr_raw s1 MT_HIF_REMAP_L2 s1.backup_l2 with backup_l2 := 0 }
  else s1

/-- The three address ranges that route through the L1 remap window in
mt7927_reg_addr. -/
def l1Range (addr : Nat) : Bool :=
  (decide (0x18000000 ≤ addr) && decide (addr < 0x18c00000)) ||
  (decide (0x70000000 ≤ addr) && decide (addr < 0x78000000)) ||
  (decide (0x7c000000 ≤ addr) && decide (addr < 0x7c400000))

/-- mt7927_reg_addr: translate a logical address to a BAR0 offset.  Low
addresses are direct; otherwise any pending remap is restored first, then the
fixed map is scanned, and failing that an L1 or L2 dynamic remap is set up. -/
def mt7927_reg_addr (s : DevState) (addr : Nat) : DevState × Nat :=
  if addr < 0x200000 then (s, addr)
  else
    let s1 := mt7927_reg_remap_restore s
    match findWindow addr with
    | some e => (s1, e.maps + (addr - e.phys))
    | none =>
      if l1Range addr then mt7927_reg_map_l1 s1 addr
      else mt7927_reg_map_l2 s1 addr

/-- mt7927_rr: translated register read. -/
def mt7927_rr (s : DevState) (addr : Nat) : DevState × Nat :=
  let p := mt7927_reg_addr s addr
  (p.1, mt7927_rr_raw p.1 p.2)

/-- mt7927_wr: translated register write. -/
def mt7927_wr (s : DevState) (addr val : Nat) : DevState :=
  let p := mt7927_reg_addr s addr
  mt7927_wr_raw p.1 p.2 val

/-- Clear the given bits of a 32-bit value (cur AND NOT mask). -/
def clearBits (cur mask : Nat) : Nat := cur - Nat.land cur mask

/-- mt7927_rmw: read-modify-write, cur AND NOT mask, OR val. -/
def mt7927_rmw (s : DevState) (addr mask val : Nat) : DevState :=
  let p := mt7927_rr s addr
  mt7927_wr p.1 addr (Nat.lor (clearBits p.2 mask) val)

/-- mt7927_set: set bits in a register (rmw with empty clear mask). -/
def mt7927_set (s : DevState) (addr val : Nat) : DevState :=
  mt7927_rmw s addr 0 val

/-- mt7927_clear: clear bits in a register (rmw with zero insert). -/
def mt7927_clear (s : DevState) (addr val : Nat) : DevState :=
  mt7927_rmw s addr val 0

/-- All-zero register file with no pending remap backup. -/
def devZero : DevState := ⟨fun _ => 0, 0, 0⟩

/-! ## WFDMA register constants (src/mt7927_regs.h) -/

def MT_WFDMA0_GLO_CFG : Nat := 0x2208
def MT_WFDMA0_RST_DTX_PTR : Nat := 0x220c
def MT_WFDMA0_RST_DRX_PTR : Nat := 0x2280
def MT_WFDMA0_HOST_INT_ENA : Nat := 0x2204
def MT_WFDMA0_RST : Nat := 0x2100
def MT_WFDMA0_PRI_DLY_INT_CFG0 : Nat := 0x22f0
def MT_TX_RING_BASE : Nat := 0x2300

def MT_WFDMA0_TX_RING_BASE (n : Nat) : Nat := 0x2300 + n * 0x10
def MT_WFDMA0_TX_RING_CIDX (n : Nat) : Nat := 0x2308 + n * 0x10
def MT_WFDMA0_TX_RING_EXT_CTRL (n : Nat) : Nat := 0x2600 + n * 0x04
def MT_WFDMA0_RX_RING_BASE (n : Nat) : Nat := 0x2500 + n * 0x10
def MT_WFDMA0_RX_RING_CIDX (n : Nat) : Nat := 0x2508 + n * 0x10
def MT_WFDMA0_RX_RING_EXT_CTRL (n : Nat) : Nat := 0x2680 + n * 0x04

def MT_WFDMA0_GLO_CFG_TX_DMA_EN : Nat := 2 ^ 0
def MT_WFDMA0_GLO_CFG_TX_DMA_BUSY : Nat := 2 ^ 1
def MT_WFDMA0_GLO_CFG_RX_DMA_EN : Nat := 2 ^ 2
def MT_WFDMA0_GLO_CFG_RX_DMA_BUSY : Nat := 2 ^ 3
def MT_WFDMA0_GLO_CFG_CSR_DISP_BASE_PTR_CHAIN_EN : Nat := 2 ^ 15
def MT_WFDMA0_RST_LOGIC_RST : Nat := 2 ^ 4
def MT_WFDMA0_RST_DMASHDL_ALL_RST : Nat := 2 ^ 5

/-- The GLO_CFG value assembled in mt7927_dma_enable (src/mt7927_dma.c):
TX_DMA_EN, RX_DMA_EN, TX_WB_DDONE, RX_WB_DDONE, FIFO_LITTLE_ENDIAN,
CLK_GAT_DIS, FIFO_DIS_CHECK, CSR_DISP_BASE_PTR_CHAIN_EN and DMA_SIZE field 3
in bits 17 to 16. -/
def gloEnableVal : Nat :=
  2 ^ 0 + 2 ^ 2 + 2 ^ 6 + 2 ^ 7 + 2 ^ 12 + 2 ^ 5 + 2 ^ 18 + 2 ^ 15 + 3 * 2 ^ 16

/-- MT_INT_RX_DONE_ALL: RX done bits 18, 16, 17. -/
def MT_INT_RX_DONE_ALL : Nat := 2 ^ 18 + 2 ^ 16 + 2 ^ 17

/-- MT_INT_TX_DONE_ALL: MCU WM bit 5, FWDL bit 4, band0 bit 0 and
GENMASK 18 4. -/
def MT_INT_TX_DONE_ALL : Nat :=
  Nat.lor (Nat.lor (Nat.lor (2 ^ 5) (2 ^ 4)) (2 ^ 0)) (2 ^ 19 - 2 ^ 4)

def MT_INT_MCU_CMD : Nat := 2 ^ 29

def MT_DMA_CTL_LAST_SEC0 : Nat := 2 ^ 30
def MT_DMA_CTL_DMA_DONE : Nat := 2 ^ 31

def MT7927_TX_RING_SIZE : Nat := 2048
def MT7927_TX_MCU_RING_SIZE : Nat := 256
def MT7927_TX_FWDL_RING_SIZE : Nat := 128
def MT7927_RX_RING_SIZE : Nat := 1536
def MT7927_RX_MCU_RING_SIZE : Nat := 512
def MT_RX_BUF_SIZE : Nat := 2048

/-! ## DMA queues (src/mt7927_dma.c) -/

/-- One 16-byte DMA descriptor (struct mt7927_desc). -/
structure Desc where
  buf0 : Nat
  ctrl : Nat
  buf1 : Nat
  info : Nat
deriving DecidableEq, Repr

/-- One DMA queue (struct mt7927_queue).  skb entries are abstract buffer
tokens; dma_addr holds the mapped bus addresses. -/
structure Queue where
  desc : List Desc
  skb : List (Option Nat)
  dma_addr : List Nat
  head : Nat
  tail : Nat
  ndesc : Nat
  hw_idx : Nat
  stopped : Bool
deriving DecidableEq, Repr

/-- mt7927_queue_alloc: zero the descriptor ring (memset), then for RX queues
(buf_size positive) pre-fill each descriptor with the mapped buffer address
and ctrl equal to buf_size; finally program the ring base, count and both
index registers.  Allocation itself is modelled as succeeding, with desc_dma
the coherent ring address and buf_dma the per-buffer mapping. -/
def mt7927_queue_alloc (s : DevState) (idx ndesc buf_size ring_base : Nat)
    (desc_dma : Nat) (buf_dma : Nat → Nat) : Queue × DevState :=
  let descs : List Desc :=
    if 0 < buf_size then
      (List.range ndesc).map (fun i =>
        ⟨buf_dma i % 2 ^ 32, buf_size, buf_dma i / 2 ^ 32, 0⟩)
    else List.replicate ndesc ⟨0, 0, 0, 0⟩
  let skbs : List (Option Nat) :=
    if 0 < buf_size then (List.range ndesc).map some
    else List.replicate ndesc none
  let dmas : List Nat :=
    if 0 < buf_size then (List.range ndesc).map buf_dma
    else List.replicate ndesc 0
  let q : Queue := ⟨descs, skbs, dmas, 0, 0, ndesc, idx, false⟩
  let s1 := mt7927_wr s (ring_base + 0x00) (desc_dma % 2 ^ 32)
  let s2 := mt7927_wr s1 (ring_base + 0x04) ndesc
  let s3 := mt7927_wr s2 (ring_base + 0x08) 0
  let s4 := mt7927_wr s3 (ring_base + 0x0c) 0
  (q, s4)

/-- mt7927_tx_queue_skb: submit one buffer of length skb_len mapped at
dma_addr.  Returns the C result code, the new queue and the list of register
writes performed (the CIDX doorbell).  map_err models dma_mapping_error. -/
def mt7927_tx_queue_skb (q : Queue) (skb_len dma_addr : Nat) (map_err : Bool) :
    Int × Queue × List (Nat × Nat) :=
  let idx := q.head
  if (idx + 1) % q.ndesc = q.tail then (-28, q, [])
  else if map_err then (-12, q, [])
  else
    let d : Desc := ⟨dma_addr % 2 ^ 32, Nat.lor skb_len MT_DMA_CTL_LAST_SEC0,
                     dma_addr / 2 ^ 32, 0⟩
    let q' : Queue := { q with
      skb := q.skb.set idx (some skb_len),
      dma_addr := q.dma_addr.set idx dma_addr,
      desc := q.desc.set idx d,
      head := (idx + 1) % q.ndesc }
    (0, q', [(MT_WFDMA0_TX_RING_CIDX q.hw_idx, (idx + 1) % q.ndesc)])

/-- mt7927_dma_prefetch: program the RX and TX ring extension control
registers, with PREFETCH base depth equal to base times 2 to the 16 plus
depth. -/
def mt7927_dma_prefetch (s : DevState) : DevState :=
  let s1 := mt7927_wr s (MT_WFDMA0_RX_RING_EXT_CTRL 0) (0x0000 * 2 ^ 16 + 0x4)
  let s2 := mt7927_wr s1 (MT_WFDMA0_RX_RING_EXT_CTRL 1) (0x0040 * 2 ^ 16 + 0x4)
  let s3 := mt7927_wr s2 (MT_WFDMA0_RX_RING_EXT_CTRL 2) (0x0080 * 2 ^ 16 + 0x4)
  let s4 := mt7927_wr s3 (MT_WFDMA0_RX_RING_EXT_CTRL 3) (0x00c0 * 2 ^ 16 + 0x4)
  let s5 := mt7927_wr s4 (MT_WFDMA0_TX_RING_EXT_CTRL 0) (0x0100 * 2 ^ 16 + 0x10)
  let s6 := mt7927_wr s5 (MT_WFDMA0_TX_RING_EXT_CTRL 1) (0x0200 * 2 ^ 16 + 0x10)
  let s7 := mt7927_wr s6 (MT_WFDMA0_TX_RING_EXT_CTRL 2) (0x0300 * 2 ^ 16 + 0x10)
  let s8 := mt7927_wr s7 (MT_WFDMA0_TX_RING_EXT_CTRL 3) (0x0400 * 2 ^ 16 + 0x10)
  let s9 := mt7927_wr s8 (MT_WFDMA0_TX_RING_EXT_CTRL 15) (0x0500 * 2 ^ 16 + 0x4)
  mt7927_wr s9 (MT_WFDMA0_TX_RING_EXT_CTRL 16) (0x0540 * 2 ^ 16 + 0x4)

/-- The busy-poll of mt7927_dma_disable: read GLO_CFG up to fuel times and
report 0 as soon as neither DMA busy bit is set, -110 on timeout.  Reads do
not change the register state. -/
def dmaIdlePoll (s : DevState) : Nat → Int
  | 0 => -110
  | fuel + 1 =>
    let v := (mt7927_rr s MT_WFDMA0_GLO_CFG).2
    if Nat.land v (MT_WFDMA0_GLO_CFG_TX_DMA_BUSY + MT_WFDMA0_GLO_CFG_RX_DMA_BUSY) = 0
    then 0
    else dmaIdlePoll s fuel

/-- mt7927_dma_disable: clear the DMA enable bits, then either wait for idle
(force false) or pulse the reset bits if not already in reset (force true),
leaving the reset bits set. -/
def mt7927_dma_disable (s : DevState) (force : Bool) : Int × DevState :=
  let s1 := mt7927_clear s MT_WFDMA0_GLO_CFG
    (MT_WFDMA0_GLO_CFG_TX_DMA_EN + MT_WFDMA0_GLO_CFG_RX_DMA_EN +
     MT_WFDMA0_GLO_CFG_CSR_DISP_BASE_PTR_CHAIN_EN)
  if force then
    let rst_before := (mt7927_rr s1 MT_WFDMA0_RST).2
    if Nat.land rst_before (MT_WFDMA0_RST_DMASHDL_ALL_RST + MT_WFDMA0_RST_LOGIC_RST) = 0 then
      let s2 := mt7927_clear s1 MT_WFDMA0_RST
        (MT_WFDMA0_RST_DMASHDL_ALL_RST + MT_WFDMA0_RST_LOGIC_RST)
      let s3 := mt7927_set s2 MT_WFDMA0_RST
        (MT_WFDMA0_RST_DMASHDL_ALL_RST + MT_WFDMA0_RST_LOGIC_RST)
      (0, s3)
    else (0, s1)
  else (dmaIdlePoll s1 1000, s1)

/-- mt7927_wpdma_reset (src/mt7927_pci.c): disable DMA, then reset the TX and
RX DMA pointers. -/
def mt7927_wpdma_reset (s : DevState) (force : Bool) : Int × DevState :=
  let p := mt7927_dma_disable s force
  if p.1 ≠ 0 ∧ force = false then p
  else
    let s2 := mt7927_wr p.2 MT_WFDMA0_RST_DTX_PTR 0xffffffff
    (0, mt7927_wr s2 MT_WFDMA0_RST_DRX_PTR 0xffffffff)

/-- mt7927_dma_enable: prefetch configuration, DMA pointer reset, delay
interrupt config, set the global enable bits, verify the enable took and that
ring 5 still has a base address, then enable completion interrupts. -/
def mt7927_dma_enable (s : DevState) : Int × DevState :=
  let s1 := mt7927_dma_prefetch s
  let s2 := mt7927_wr s1 MT_WFDMA0_RST_DTX_PTR 0xffffffff
  let s3 := mt7927_wr s2 MT_WFDMA0_RST_DRX_PTR 0xffffffff
  let s4 := mt7927_wr s3 MT_WFDMA0_PRI_DLY_INT_CFG0 0
  let s5 := mt7927_set s4 MT_WFDMA0_GLO_CFG gloEnableVal
  let v := (mt7927_rr s5 MT_WFDMA0_GLO_CFG).2
  if Nat.land v (MT_WFDMA0_GLO_CFG_TX_DMA_EN + MT_WFDMA0_GLO_CFG_RX_DMA_EN) = 0
  then (-5, s5)
  else
    let tx5_base := (mt7927_rr s5 (MT_TX_RING_BASE + 0x50)).2
    if tx5_base = 0 then (-5, s5)
    else (0, mt7927_wr s5 MT_WFDMA0_HOST_INT_ENA
      (Nat.lor (Nat.lor MT_INT_RX_DONE_ALL MT_INT_TX_DONE_ALL) MT_INT_MCU_CMD))

/-- mt7927_dma_init: forced disable, WPDMA reset, allocate TX rings 0
(band0), 5 (MCU WM), 4 (FWDL), write their extension controls, allocate RX
rings 0 (MCU WM) and 2 (band0), then enable DMA.  The d arguments are the
coherent ring addresses handed out by the allocator, b0 and b2 the RX buffer
mappings. -/
def mt7927_dma_init (s : DevState) (d0 d1 d2 dr0 dr2 : Nat)
    (b0 b2 : Nat → Nat) : Int × DevState :=
  let p1 := mt7927_dma_disable s true
  if p1.1 ≠ 0 then p1
  else
    let p2 := mt7927_wpdma_reset p1.2 true
    if p2.1 ≠ 0 then p2
    else
      let a0 := mt7927_queue_alloc p2.2 0 MT7927_TX_RING_SIZE 0
        (MT_WFDMA0_TX_RING_BASE 0) d0 (fun _ => 0)
      let a1 := mt7927_queue_alloc a0.2 5 MT7927_TX_MCU_RING_SIZE 0
        (MT_WFDMA0_TX_RING_BASE 5) d1 (fun _ => 0)
      let a2 := mt7927_queue_alloc a1.2 4 MT7927_TX_FWDL_RING_SIZE 0
        (MT_WFDMA0_TX_RING_BASE 4) d2 (fun _ => 0)
      let s3 := mt7927_wr a2.2 (MT_WFDMA0_TX_RING_EXT_CTRL 0) 0x4
      let s4 := mt7927_wr s3 (MT_WFDMA0_TX_RING_EXT_CTRL 5) 0x4
      let s5 := mt7927_wr s4 (MT_WFDMA0_TX_RING_EXT_CTRL 4) 0x4
      let a3 := mt7927_queue_alloc s5 0 MT7927_RX_MCU_RING_SIZE MT_RX_BUF_SIZE
        (MT_WFDMA0_RX_RING_BASE 0) dr0 b0
      let a4 := mt7927_queue_alloc a3.2 2 MT7927_RX_RING_SIZE MT_RX_BUF_SIZE
        (MT_WFDMA0_RX_RING_BASE 2) dr2 b2
      mt7927_dma_enable a4.2

/-! ## Hardware-polled register operations (src/mt7927_pci.c)

mt7927_wfsys_reset and mt7927_mcu_drv_pmctrl poll status bits that the
hardware changes on its own, so their reads are modelled by an oracle
o : Nat → Nat giving the value returned by the n-th read of the polled
register.  Both functions also produce an event trace. -/

def MT_WFSYS_SW_RST_B : Nat := 0x7c000140
def MT_CONN_ON_LPCTL : Nat := 0x7c060010
def PCIE_LPCR_HOST_CLR_OWN : Nat := 2 ^ 1

/-- One observable hardware access or wait. -/
inductive HwEv where
  | read (off val : Nat)
  | write (off val : Nat)
  | sleepMs (n : Nat)
  | sleepUsRange (lo hi : Nat)
deriving DecidableEq, Repr

/-- The INIT_DONE poll loop of mt7927_wfsys_reset: read the reset register;
stop with 0 when bit 4 (MT_WFSYS_SW_INIT_DONE) is set, otherwise sleep 10 ms
and retry; on exhausted fuel do the final diagnostic read and report -110. -/
def wfsysPoll (o : Nat → Nat) (next : Nat) : Nat → Int × List HwEv
  | 0 => (-110, [HwEv.read MT_WFSYS_SW_RST_B (o next)])
  | fuel + 1 =>
    let v := o next
    if v.testBit 4 then (0, [HwEv.read MT_WFSYS_SW_RST_B v])
    else
      let p := wfsysPoll o (next + 1) fuel
      (p.1, HwEv.read MT_WFSYS_SW_RST_B v :: HwEv.sleepMs 10 :: p.2)

/-- mt7927_wfsys_reset: log-read the reset register, clear bit 0 via
read-modify-write (assert reset), sleep 50 ms, set bit 0 via
read-modify-write (deassert reset), then poll INIT_DONE 50 times at 10 ms.
Read indices: 0 is the log read, 1 the rmw read of the clear, 2 the rmw read
of the set, 3 onward the poll reads. -/
def mt7927_wfsys_reset (o : Nat → Nat) : Int × List HwEv :=
  let p := wfsysPoll o 3 50
  (p.1,
   HwEv.read MT_WFSYS_SW_RST_B (o 0) ::
   HwEv.read MT_WFSYS_SW_RST_B (o 1) ::
   HwEv.write MT_WFSYS_SW_RST_B (o 1 - o 1 % 2) ::
   HwEv.sleepMs 50 ::
   HwEv.read MT_WFSYS_SW_RST_B (o 2) ::
   HwEv.write MT_WFSYS_SW_RST_B (if o 2 % 2 = 1 then o 2 else o 2 + 1) ::
   p.2)

/-- The OWN_SYNC poll loop of mt7927_mcu_drv_pmctrl: read LPCTL; stop with 0
when bit 2 is clear, otherwise sleep 500 to 1000 us and retry; -110 when the
fuel (2000 iterations) runs out. -/
def drvPoll (o : Nat → Nat) (next : Nat) : Nat → Int × List HwEv
  | 0 => (-110, [])
  | fuel + 1 =>
    let v := o next
    if v.testBit 2 = false then (0, [HwEv.read MT_CONN_ON_LPCTL v])
    else
      let p := drvPoll o (next + 1) fuel
      (p.1, HwEv.read MT_CONN_ON_LPCTL v :: HwEv.sleepUsRange 500 1000 :: p.2)

/-- mt7927_mcu_drv_pmctrl: read LPCTL; when OWN_SYNC (bit 2) is already
clear the driver already owns the chip and the function returns 0 at once;
otherwise write CLR_OWN and poll up to 2000 times for OWN_SYNC to clear. -/
def mt7927_mcu_drv_pmctrl (o : Nat → Nat) : Int × List HwEv :=
  let v0 := o 0
  if v0.testBit 2 = false then (0, [HwEv.read MT_CONN_ON_LPCTL v0])
  else
    let p := drvPoll o 1 2000
    (p.1,
     HwEv.read MT_CONN_ON_LPCTL v0 ::
     HwEv.write MT_CONN_ON_LPCTL PCIE_LPCR_HOST_CLR_OWN ::
     p.2)

/-! ## MCU firmware download (src/mt7927_mcu.c)

The download path is modelled as the trace of messages it submits: generic
MCU commands (with their wait_resp flag), FW_SCATTER headers carrying the
mt7927_fw_scatter payload, and raw firmware data chunks sent through
mt7927_mcu_send_firmware.  The outcome of each response wait is supplied by
a list of WaitRes values consumed in order. -/

def MT7927_FW_CHUNK_SIZE : Nat := 64 * 1024

def MCU_CMD_FW_SCATTER : Nat := 0x0f
def MCU_CMD_PATCH_SEM_CONTROL : Nat := 0x10
def MCU_CMD_PATCH_FINISH_REQ : Nat := 0x11
def MCU_CMD_START_FIRMWARE : Nat := 0x15

/-- One message submitted by the firmware download path. -/
inductive McuEv where
  | cmd (cid : Nat) (wait : Bool)
  | scatterHdr (addr len : Nat)
  | fwData (len : Nat)
deriving DecidableEq, Repr

/-- Outcome of one wait_resp wait in mt7927_mcu_send_and_get_msg: the wait
timed out, the response carried a wrong sequence number, or a response
arrived whose first payload byte is b. -/
inductive WaitRes where
  | timeout
  | badseq
  | ok (b : Nat)
deriving DecidableEq, Repr

/-- Pop the next wait outcome; an exhausted list behaves as a timeout. -/
def take1 : List WaitRes → WaitRes × List WaitRes
  | [] => (WaitRes.timeout, [])
  | w :: ws => (w, ws)

/-- mt7927_mcu_send_and_get_msg for a non-scatter command with
wait_resp true: -110 on wait_event timeout, -5 on a sequence mismatch,
0 when a response arrives. -/
def sendMsgWait (cid : Nat) (ws : List WaitRes) : Int × List McuEv × List WaitRes :=
  let p := take1 ws
  let r : Int := match p.1 with
    | WaitRes.timeout => -110
    | WaitRes.badseq => -5
    | WaitRes.ok _ => 0
  (r, [McuEv.cmd cid true], p.2)

/-- mt7927_mcu_patch_sem_ctrl: send PATCH_SEM_CONTROL with wait_resp true
and interpret the first response byte: for get, 1 (READY) yields 0, 0
(NOT_READY, patch already loaded) yields 1, anything else -5; for release the
byte itself is returned. -/
def mt7927_mcu_patch_sem_ctrl (get : Bool) (ws : List WaitRes) :
    Int × List McuEv × List WaitRes :=
  let p := take1 ws
  let ev := [McuEv.cmd MCU_CMD_PATCH_SEM_CONTROL true]
  match p.1 with
  | WaitRes.timeout => (-110, ev, p.2)
  | WaitRes.badseq => (-5, ev, p.2)
  | WaitRes.ok b =>
    if get then
      if b = 1 then (0, ev, p.2)
      else if b = 0 then (1, ev, p.2)
      else (-5, ev, p.2)
    else ((b : Int), ev, p.2)

/-- Fuel-indexed form of the chunk loop: each iteration consumes
min len MT7927_FW_CHUNK_SIZE (at least one) byte, so fuel equal to the
initial length always suffices. -/
def chunkGo (addr : Nat) : Nat → Nat → List McuEv
  | _, 0 => []
  | 0, _ + 1 => []
  | fuel + 1, len + 1 =>
    let c := min (len + 1) MT7927_FW_CHUNK_SIZE
    McuEv.scatterHdr addr c :: McuEv.fwData c ::
      chunkGo (addr + c) fuel (len + 1 - c)

/-- The chunk loop shared by mt7927_load_patch and mt7927_load_ram: while
bytes remain, send a FW_SCATTER header for min len MT7927_FW_CHUNK_SIZE
bytes at the running address, then that many raw firmware bytes, advancing
address and remaining length. -/
def chunkEvs (addr len : Nat) : List McuEv := chunkGo addr len len

/-- A parsed patch image: total blob size and the addr and len of each
section descriptor, in order (struct mt7927_patch_hdr is 204 bytes, each
struct mt7927_patch_sec 64 bytes). -/
structure PatchFw where
  size : Nat
  regions : List (Nat × Nat)
deriving DecidableEq, Repr

/-- A parsed RAM image: total blob size and the addr and len of each region
descriptor, in order (struct mt7927_fw_trailer is 36 bytes, each
struct mt7927_fw_region 72 bytes). -/
structure RamFw where
  size : Nat
  regions : List (Nat × Nat)
deriving DecidableEq, Repr

/-- Region loop of mt7927_load_patch: data for region i starts where the
previous region ended; a region overrunning the blob aborts with -22. -/
def loadPatchRegions (size offset : Nat) : List (Nat × Nat) → Int × List McuEv
  | [] => (0, [])
  | (addr, len) :: rest =>
    if size < offset + len then (-22, [])
    else
      let p := loadPatchRegions size (offset + len) rest
      (p.1, chunkEvs addr len ++ p.2)

/-- mt7927_load_patch: reject a blob smaller than the header, then stream
every section, chunked, starting after the header and section table. -/
def mt7927_load_patch (fw : PatchFw) : Int × List McuEv :=
  if fw.size < 204 then (-22, [])
  else loadPatchRegions fw.size (204 + fw.regions.length * 64) fw.regions

/-- Region loop of mt7927_load_ram: bounds are checked against the blob
minus trailer and region table (avail); data for region i starts at the
running offset. -/
def loadRamRegions (avail offset : Nat) : List (Nat × Nat) → Int × List McuEv
  | [] => (0, [])
  | (addr, len) :: rest =>
    if avail < offset + len then (-22, [])
    else
      let p := loadRamRegions avail (offset + len) rest
      (p.1, chunkEvs addr len ++ p.2)

/-- mt7927_load_ram: reject a blob smaller than the trailer, then stream
every region, chunked, from the front of the blob. -/
def mt7927_load_ram (fw : RamFw) : Int × List McuEv :=
  if fw.size < 36 then (-22, [])
  else loadRamRegions (fw.size - 36 - fw.regions.length * 72) 0 fw.regions

/-- Steps 5 and 6 of mt7927_load_firmware (the load_ram label onward): load
the RAM image, then send MCU_CMD_START_FIRMWARE with wait_resp true. -/
def loadRamAndStart (ram : RamFw) (ws : List WaitRes) : Int × List McuEv :=
  let p5 := mt7927_load_ram ram
  if p5.1 ≠ 0 then p5
  else
    let p6 := sendMsgWait MCU_CMD_START_FIRMWARE ws
    (p6.1, p5.2 ++ p6.2.1)

/-- mt7927_load_firmware: acquire the patch semaphore (a NOT_READY response
skips straight to the RAM image), load the patch, signal patch completion
with MCU_CMD_PATCH_FINISH_REQ, release the semaphore, load the RAM image and
send MCU_CMD_START_FIRMWARE; any failing step aborts the sequence (after a
patch-phase failure the semaphore is released on the error path). -/
def mt7927_load_firmware (patch : PatchFw) (ram : RamFw) (ws : List WaitRes) :
    Int × List McuEv :=
  let p1 := mt7927_mcu_patch_sem_ctrl true ws
  if p1.1 < 0 then (p1.1, p1.2.1)
  else if p1.1 = 1 then
    let p := loadRamAndStart ram p1.2.2
    (p.1, p1.2.1 ++ p.2)
  else
    let p2 := mt7927_load_patch patch
    if p2.1 ≠ 0 then
      let p3 := mt7927_mcu_patch_sem_ctrl false p1.2.2
      (p2.1, p1.2.1 ++ p2.2 ++ p3.2.1)
    else
      let p3 := sendMsgWait MCU_CMD_PATCH_FINISH_REQ p1.2.2
      if p3.1 ≠ 0 then
        let p4 := mt7927_mcu_patch_sem_ctrl false p3.2.2
        (p3.1, p1.2.1 ++ p2.2 ++ p3.2.1 ++ p4.2.1)
      else
        let p4 := mt7927_mcu_patch_sem_ctrl false p3.2.2
        if p4.1 ≠ 0 then (p4.1, p1.2.1 ++ p2.2 ++ p3.2.1 ++ p4.2.1)
        else
          let p := loadRamAndStart ram p4.2.2
          (p.1, p1.2.1 ++ p2.2 ++ p3.2.1 ++ p4.2.1 ++ p.2)

/-! ## Sample states and images used by the theorems -/

/-- A device state whose remap-control register reads 7 (arbitrary non-zero
pre-call value), with no pending backup. -/
def devSeven : DevState :=
  ⟨fun o => if o = MT_HIF_REMAP_L1 then 7 else 0, 0, 0⟩

/-- A device state with an all-zero register file but a pending (non-zero)
L1 restore backup, as left behind by an earlier remapped access. -/
def devPending : DevState := ⟨fun _ => 0, 0x4444, 0⟩

/-- A two-descriptor queue in the full state: head 1, tail 0, so
(head + 1) mod ndesc = tail. -/
def qFull : Queue :=
  ⟨[⟨0, 0, 0, 0⟩, ⟨0, 0, 0, 0⟩], [none, none], [0, 0], 1, 0, 2, 5, false⟩

/-- A one-section patch image: 204-byte header, one 64-byte section
descriptor, 100 bytes of data. -/
def patchOne : PatchFw := ⟨368, [(0x900000, 100)]⟩

/-- The two-section RAM image of the end-to-end scenario: section A at 0x0
with 8000 bytes, section B at 0x9000 with 200 bytes; blob size 8380 covers
the 8200 data bytes, two 72-byte region descriptors and the 36-byte
trailer. -/
def ramScenario : RamFw := ⟨8380, [(0, 8000), (0x9000, 200)]⟩

/-- Wait outcomes for a fully successful download: semaphore READY, patch
finish acknowledged, semaphore released with status 0, start-firmware
acknowledged. -/
def okWaits : List WaitRes :=
  [WaitRes.ok 1, WaitRes.ok 0, WaitRes.ok 0, WaitRes.ok 0]

/-! ## Poll-loop lemmas -/

/-- The INIT_DONE poll reports success exactly when some read within the
fuel window has bit 4 set. -/
theorem wfsysPoll_ret (o : Nat → Nat) (fuel next : Nat) :
    (wfsysPoll o next fuel).1 = 0 ↔
      ∃ i, i < fuel ∧ (o (next + i)).testBit 4 = true := by
  induction fuel generalizing next with
  | zero => simp [wfsysPoll]
  | succ fuel ih =>
    by_cases hb : (o next).testBit 4
    · simp only [wfsysPoll, hb, if_true]
      constructor
      · intro _; exact ⟨0, Nat.succ_pos _, by simpa using hb⟩
      · intro _; trivial
    · simp only [wfsysPoll, hb, Bool.false_eq_true, if_false]
      rw [ih (next + 1)]
      constructor
      · rintro ⟨i, hi, hbit⟩
        refine ⟨i + 1, by omega, ?_⟩
        rw [show next + (i + 1) = next + 1 + i by omega]
        exact hbit
      · rintro ⟨i, hi, hbit⟩
        cases i with
        | zero =>
          rw [Nat.add_zero] at hbit
          exact absurd hbit (by simpa using hb)
        | succ j =>
          refine ⟨j, by omega, ?_⟩
          rw [show next + 1 + j = next + (j + 1) by omega]
          exact hbit

/-- Every sleep event the INIT_DONE poll emits is the 10 ms poll
granularity. -/
theorem wfsysPoll_sleeps (o : Nat → Nat) (fuel next n : Nat)
    (h : HwEv.sleepMs n ∈ (wfsysPoll o next fuel).2) : n = 10 := by
  induction fuel generalizing next with
  | zero => simp [wfsysPoll] at h
  | succ fuel ih =>
    by_cases hb : (o next).testBit 4
    · simp [wfsysPoll, hb] at h
    · simp only [wfsysPoll, hb, Bool.false_eq_true, if_false,
        List.mem_cons] at h
      rcases h with h | h | h
      · cases h
      · cases h; rfl
      · exact ih (next + 1) h

/-! ## Claim theorems -/

/-- Claim C8: mt7927_wfsys_reset performs, in order, a read of the
reset-control register, a read-modify-write clearing the enable bit (assert
reset), a 50 ms (at least 10 ms) wait, a read-modify-write setting the
enable bit (deassert reset), and then polls the INIT_DONE status bit at
10 ms granularity for up to 50 iterations (about 500 ms), returning 0 if and
only if some poll read observes the bit set. -/
theorem c8_wfsys_reset_steps (o : Nat → Nat) :
    ((mt7927_wfsys_reset o).1 = 0 ↔
      ∃ i, i < 50 ∧ (o (3 + i)).testBit 4 = true) ∧
    (mt7927_wfsys_reset o).2.take 6 =
      [HwEv.read MT_WFSYS_SW_RST_B (o 0),
       HwEv.read MT_WFSYS_SW_RST_B (o 1),
       HwEv.write MT_WFSYS_SW_RST_B (o 1 - o 1 % 2),
       HwEv.sleepMs 50,
       HwEv.read MT_WFSYS_SW_RST_B (o 2),
       HwEv.write MT_WFSYS_SW_RST_B (if o 2 % 2 = 1 then o 2 else o 2 + 1)] ∧
    (∀ n, HwEv.sleepMs n ∈ (mt7927_wfsys_reset o).2.drop 6 → n = 10) := by
  refine ⟨?_, ?_, ?_⟩
  · simpa [mt7927_wfsys_reset] using wfsysPoll_ret o 50 3
  · simp [mt7927_wfsys_reset]
  · intro n h
    simp only [mt7927_wfsys_reset, List.drop_succ_cons, List.drop_zero] at h
    exact wfsysPoll_sleeps o 50 3 n h

/-- Witness for C8: with an oracle whose first poll read has INIT_DONE set,
the reset reports success. -/
theorem c8_witness :
    (mt7927_wfsys_reset (fun n => if 3 ≤ n then 16 else 0)).1 = 0 :=
  (c8_wfsys_reset_steps (fun n => if 3 ≤ n then 16 else 0)).1.mpr
    ⟨0, by decide, by decide⟩

/-- Claim C9: when OWN_SYNC (bit 2) already reads clear on entry,
mt7927_mcu_drv_pmctrl returns success from its very first status check and
its whole access trace is that single read, so the CLR_OWN claim bit is
never written. -/
theorem c9_drv_pmctrl_first_check (o : Nat → Nat)
    (h : (o 0).testBit 2 = false) :
    mt7927_mcu_drv_pmctrl o = (0, [HwEv.read MT_CONN_ON_LPCTL (o 0)]) := by
  simp [mt7927_mcu_drv_pmctrl, h]

/-- Witness for C9 at the all-zero oracle. -/
theorem c9_witness :
    ((0 : Nat).testBit 2 = false) ∧
    mt7927_mcu_drv_pmctrl (fun _ => 0) = (0, [HwEv.read MT_CONN_ON_LPCTL 0]) :=
  ⟨by decide, c9_drv_pmctrl_first_check (fun _ => 0) (by decide)⟩

/-- Claim C10: when the ring is full, that is (head + 1) mod ndesc equals
tail, mt7927_tx_queue_skb returns -ENOSPC with the queue unchanged and
performs no register write (no doorbell): nothing is stored and head does
not advance. -/
theorem c10_tx_queue_skb_full (q : Queue) (len addr : Nat) (e : Bool)
    (h : (q.head + 1) % q.ndesc = q.tail) :
    mt7927_tx_queue_skb q len addr e = (-28, q, []) := by
  simp [mt7927_tx_queue_skb, h]

/-- Witness for C10 on a concrete full two-descriptor queue. -/
theorem c10_witness :
    ((qFull.head + 1) % qFull.ndesc = qFull.tail) ∧
    mt7927_tx_queue_skb qFull 5 0x1234 false = (-28, qFull, []) :=
  ⟨by decide, c10_tx_queue_skb_full qFull 5 0x1234 false (by decide)⟩

/-- Claim C6 (counterexample to the claim as stated): translating an address
inside a Fixed Map window is not free of remap-control writes: when an
earlier remapped access left a pending backup, mt7927_reg_addr first writes
the remap-control register to restore it.  Here the address 0x54000123 lies
in the window at 0x54000000 yet the translation changes the L1
remap-control register from 0 to the pending backup 0x4444. -/
theorem c6_counterexample :
    (findWindow 0x54000123).isSome = true ∧
    devPending.regs MT_HIF_REMAP_L1 = 0 ∧
    (mt7927_reg_addr devPending 0x54000123).1.regs MT_HIF_REMAP_L1 = 0x4444 := by
  refine ⟨by decide, by decide, by decide⟩

/-- Claim C6 (amended): for an address inside a Fixed Map window, when no
deferred restore is pending (both backups zero), mt7927_reg_addr leaves the
device state completely unchanged (in particular writes no remap register)
and returns maps + (addr - phys) for the first matching window. -/
theorem c6_fixed_map_translate (s : DevState) (addr : Nat) (e : RegMap)
    (h1 : s.backup_l1 = 0) (h2 : s.backup_l2 = 0)
    (hlow : 0x200000 ≤ addr) (hw : findWindow addr = some e) :
    mt7927_reg_addr s addr = (s, e.maps + (addr - e.phys)) := by
  have hr : mt7927_reg_remap_restore s = s := by
    simp [mt7927_reg_remap_restore, h1, h2]
  simp [mt7927_reg_addr, Nat.not_lt.mpr hlow, hr, hw]

/-- Witness for C6 at the WFDMA window entry. -/
theorem c6_witness :
    (devZero.backup_l1 = 0 ∧ devZero.backup_l2 = 0 ∧
     (0x200000 ≤ 0x54000123) ∧
     findWindow 0x54000123 = some ⟨0x54000000, 0x002000, 0x0001000⟩) ∧
    mt7927_reg_addr devZero 0x54000123 =
      (devZero, 0x002000 + (0x54000123 - 0x54000000)) :=
  ⟨⟨rfl, rfl, by decide, by decide⟩,
   c6_fixed_map_translate devZero 0x54000123 ⟨0x54000000, 0x002000, 0x0001000⟩
     rfl rfl (by decide) (by decide)⟩

/-- Claim C5 (counterexample to the claim as stated): a read of the logical
address 0x18000000, which is outside the direct low range and outside every
Fixed Map window, does not leave the remap-control register at its pre-call
value once the access completes: starting from an all-zero register file the
L1 remap-control register holds 0x18000000 afterwards, not 0. -/
theorem c5_counterexample :
    findWindow 0x18000000 = none ∧
    devZero.regs MT_HIF_REMAP_L1 = 0 ∧
    (mt7927_rr devZero 0x18000000).1.regs MT_HIF_REMAP_L1 = 0x18000000 := by
  refine ⟨by decide, by decide, by decide⟩

/-- Claim C5 (amended): for any address outside the direct low range and
outside every Fixed Map window, the completed access leaves the L1
remap-control register holding the newly programmed remap value, never the
pre-call value.  For L1-routed addresses the pre-call L1 value is saved in
backup_l1 and is written back to the L1 register only by the restore step at
the start of the next translated access (and only when non-zero).  For every
other out-of-map address (L2-routed) the pre-call L1 value is saved in
backup_l2 and the next restore step writes that saved L1 value into the L2
remap register, while the L1 register keeps the remap value and the pre-call
L2 value is never saved at all. -/
theorem c5_remap_deferred_restore (s : DevState) (addr : Nat)
    (h1 : s.backup_l1 = 0) (h2 : s.backup_l2 = 0)
    (hlow : 0x200000 ≤ addr) (hw : findWindow addr = none) :
    (l1Range addr = true →
      ((mt7927_rr s addr).1.backup_l1 = s.regs MT_HIF_REMAP_L1) ∧
      ((mt7927_rr s addr).1.regs MT_HIF_REMAP_L1 =
        s.regs MT_HIF_REMAP_L1 % 65536 + addr / 65536 % 65536 * 65536) ∧
      (s.regs MT_HIF_REMAP_L1 ≠ 0 →
        (mt7927_reg_remap_restore (mt7927_rr s addr).1).regs MT_HIF_REMAP_L1 =
          s.regs MT_HIF_REMAP_L1)) ∧
    (l1Range addr = false →
      ((mt7927_rr s addr).1.backup_l2 = s.regs MT_HIF_REMAP_L1) ∧
      ((mt7927_rr s addr).1.regs MT_HIF_REMAP_L1 =
        s.regs MT_HIF_REMAP_L1 % 65536 + 0x1850 * 65536) ∧
      ((mt7927_rr s addr).1.regs MT_HIF_REMAP_L2 = addr) ∧
      (s.regs MT_HIF_REMAP_L1 ≠ 0 →
        (mt7927_reg_remap_restore (mt7927_rr s addr).1).regs MT_HIF_REMAP_L2 =
          s.regs MT_HIF_REMAP_L1 ∧
        (mt7927_reg_remap_restore (mt7927_rr s addr).1).regs MT_HIF_REMAP_L1 =
          s.regs MT_HIF_REMAP_L1 % 65536 + 0x1850 * 65536)) := by
  have hr : mt7927_reg_remap_restore s = s := by
    simp [mt7927_reg_remap_restore, h1, h2]
  constructor
  · intro hl
    refine ⟨?_, ?_, ?_⟩
    · simp [mt7927_rr, mt7927_reg_addr, Nat.not_lt.mpr hlow, hr, hw, hl,
        mt7927_reg_map_l1, mt7927_wr_raw, mt7927_rr_raw]
    · simp [mt7927_rr, mt7927_reg_addr, Nat.not_lt.mpr hlow, hr, hw, hl,
        mt7927_reg_map_l1, mt7927_wr_raw, mt7927_rr_raw]
    · intro hnz
      simp only [MT_HIF_REMAP_L1] at hnz
      simp [mt7927_rr, mt7927_reg_addr, Nat.not_lt.mpr hlow, hw, hl,
        mt7927_reg_map_l1, mt7927_reg_remap_restore, mt7927_wr_raw,
        mt7927_rr_raw, h1, h2, hnz, MT_HIF_REMAP_L1, MT_HIF_REMAP_L2]
  · intro hl
    refine ⟨?_, ?_, ?_, ?_⟩
    · simp [mt7927_rr, mt7927_reg_addr, Nat.not_lt.mpr hlow, hr, hw, hl,
        mt7927_reg_map_l2, mt7927_wr_raw, mt7927_rr_raw]
    · simp [mt7927_rr, mt7927_reg_addr, Nat.not_lt.mpr hlow, hr, hw, hl,
        mt7927_reg_map_l2, mt7927_wr_raw, mt7927_rr_raw,
        MT_HIF_REMAP_L1, MT_HIF_REMAP_L2, MT_HIF_REMAP_BASE_L2]
    · simp [mt7927_rr, mt7927_reg_addr, Nat.not_lt.mpr hlow, hr, hw, hl,
        mt7927_reg_map_l2, mt7927_wr_raw, mt7927_rr_raw,
        MT_HIF_REMAP_L1, MT_HIF_REMAP_L2]
    · intro hnz
      simp only [MT_HIF_REMAP_L1] at hnz
      constructor
      · simp [mt7927_rr, mt7927_reg_addr, Nat.not_lt.mpr hlow, hw, hl,
          mt7927_reg_map_l2, mt7927_reg_remap_restore, mt7927_wr_raw,
          mt7927_rr_raw, h1, h2, hnz, MT_HIF_REMAP_L1, MT_HIF_REMAP_L2]
      · simp [mt7927_rr, mt7927_reg_addr, Nat.not_lt.mpr hlow, hw, hl,
          mt7927_reg_map_l2, mt7927_reg_remap_restore, mt7927_wr_raw,
          mt7927_rr_raw, h1, h2, hnz, MT_HIF_REMAP_L1, MT_HIF_REMAP_L2,
          MT_HIF_REMAP_BASE_L2]

/-- Witness for C5, exercising both routing branches with pre-call remap
value 7: the L1-routed address 0x18000000 and the L2-routed address
0x19000000 (outside the fixed map and outside every L1 range). -/
theorem c5_witness :
    (devSeven.backup_l1 = 0 ∧ devSeven.backup_l2 = 0 ∧
     (0x200000 ≤ 0x18000000) ∧ findWindow 0x18000000 = none ∧
     l1Range 0x18000000 = true ∧
     (0x200000 ≤ 0x19000000) ∧ findWindow 0x19000000 = none ∧
     l1Range 0x19000000 = false) ∧
    ((mt7927_rr devSeven 0x18000000).1.backup_l1 =
      devSeven.regs MT_HIF_REMAP_L1) ∧
    ((mt7927_rr devSeven 0x18000000).1.regs MT_HIF_REMAP_L1 =
      devSeven.regs MT_HIF_REMAP_L1 % 65536 +
        0x18000000 / 65536 % 65536 * 65536) ∧
    (devSeven.regs MT_HIF_REMAP_L1 ≠ 0 →
      (mt7927_reg_remap_restore
        (mt7927_rr devSeven 0x18000000).1).regs MT_HIF_REMAP_L1 =
        devSeven.regs MT_HIF_REMAP_L1) ∧
    ((mt7927_rr devSeven 0x19000000).1.backup_l2 =
      devSeven.regs MT_HIF_REMAP_L1) ∧
    ((mt7927_rr devSeven 0x19000000).1.regs MT_HIF_REMAP_L2 = 0x19000000) ∧
    (devSeven.regs MT_HIF_REMAP_L1 ≠ 0 →
      (mt7927_reg_remap_restore
        (mt7927_rr devSeven 0x19000000).1).regs MT_HIF_REMAP_L2 =
        devSeven.regs MT_HIF_REMAP_L1 ∧
      (mt7927_reg_remap_restore
        (mt7927_rr devSeven 0x19000000).1).regs MT_HIF_REMAP_L1 =
        devSeven.regs MT_HIF_REMAP_L1 % 65536 + 0x1850 * 65536) :=
  ⟨⟨rfl, rfl, by decide, by decide, by decide, by decide, by decide, by decide⟩,
   ((c5_remap_deferred_restore devSeven 0x18000000 rfl rfl
      (by decide) (by decide)).1 (by decide)).1,
   ((c5_remap_deferred_restore devSeven 0x18000000 rfl rfl
      (by decide) (by decide)).1 (by decide)).2.1,
   ((c5_remap_deferred_restore devSeven 0x18000000 rfl rfl
      (by decide) (by decide)).1 (by decide)).2.2,
   ((c5_remap_deferred_restore devSeven 0x19000000 rfl rfl
      (by decide) (by decide)).2 (by decide)).1,
   ((c5_remap_deferred_restore devSeven 0x19000000 rfl rfl
      (by decide) (by decide)).2 (by decide)).2.2.1,
   ((c5_remap_deferred_restore devSeven 0x19000000 rfl rfl
      (by decide) (by decide)).2 (by decide)).2.2.2⟩

/-- Claim C2 (code evaluation at the failing input): a freshly allocated
two-descriptor TX queue (buf_size 0) has every descriptor entirely zero, so
the DMA done bit (bit 31 of ctrl) is clear on every descriptor rather than
pre-set as the specification and the repository test suite require. -/
theorem c2_queue_alloc_zeroed :
    (mt7927_queue_alloc devZero 0 2 0 (MT_WFDMA0_TX_RING_BASE 0) 0x1000
      (fun _ => 0)).1.desc = [⟨0, 0, 0, 0⟩, ⟨0, 0, 0, 0⟩] ∧
    ((mt7927_queue_alloc devZero 0 2 0 (MT_WFDMA0_TX_RING_BASE 0) 0x1000
      (fun _ => 0)).1.desc.all
        (fun d => !(d.ctrl.testBit 31))) = true := by
  refine ⟨by decide, by decide⟩

/-- Claim C3 (code evaluation at the scenario input): on the two-section RAM
image (0x0 with 8000 bytes, 0x9000 with 200 bytes) mt7927_load_ram emits
exactly two FW_SCATTER headers and exactly two data chunk sends, in section
order, the first chunk carrying all 8000 bytes, because the code chunks at
MT7927_FW_CHUNK_SIZE (64 KiB) and sends one scatter header per chunk rather
than three 4 KiB-bounded chunks after two per-section init commands. -/
theorem c3_load_ram_scenario :
    mt7927_load_ram ramScenario =
      (0, [McuEv.scatterHdr 0 8000, McuEv.fwData 8000,
           McuEv.scatterHdr 0x9000 200, McuEv.fwData 200]) ∧
    ((mt7927_load_ram ramScenario).2.countP
      (fun e => match e with | McuEv.fwData _ => true | _ => false)) = 2 := by
  refine ⟨by decide, by decide⟩

/-- Claim C1 (code evaluation): on a successful download run,
mt7927_load_firmware ends by sending the MCU_CMD_START_FIRMWARE command with
wait_resp true (an acknowledgement is awaited), and its trace contains no
register write at all, in particular no direct setting of a software
init-done status bit. -/
theorem c1_load_firmware_sends_start :
    mt7927_load_firmware patchOne ramScenario okWaits =
      (0, [McuEv.cmd MCU_CMD_PATCH_SEM_CONTROL true,
           McuEv.scatterHdr 0x900000 100, McuEv.fwData 100,
           McuEv.cmd MCU_CMD_PATCH_FINISH_REQ true,
           McuEv.cmd MCU_CMD_PATCH_SEM_CONTROL true,
           McuEv.scatterHdr 0 8000, McuEv.fwData 8000,
           McuEv.scatterHdr 0x9000 200, McuEv.fwData 200,
           McuEv.cmd MCU_CMD_START_FIRMWARE true]) ∧
    McuEv.cmd MCU_CMD_START_FIRMWARE true ∈
      (mt7927_load_firmware patchOne ramScenario okWaits).2 := by
  refine ⟨by decide, by decide⟩

/-- Claim C4 (code evaluation): a completion-wait timeout aborts the
sequence instead of letting it proceed: mt7927_mcu_send_and_get_msg reports
-ETIMEDOUT when its response wait times out, and when the
MCU_CMD_PATCH_FINISH_REQ wait times out mt7927_load_firmware returns
-ETIMEDOUT after only the patch phase: no RAM data is sent and no
MCU_CMD_START_FIRMWARE follows. -/
theorem c4_timeout_aborts :
    sendMsgWait MCU_CMD_PATCH_FINISH_REQ [WaitRes.timeout] =
      (-110, [McuEv.cmd MCU_CMD_PATCH_FINISH_REQ true], []) ∧
    mt7927_load_firmware patchOne ramScenario [WaitRes.ok 1, WaitRes.timeout] =
      (-110, [McuEv.cmd MCU_CMD_PATCH_SEM_CONTROL true,
              McuEv.scatterHdr 0x900000 100, McuEv.fwData 100,
              McuEv.cmd MCU_CMD_PATCH_FINISH_REQ true,
              McuEv.cmd MCU_CMD_PATCH_SEM_CONTROL true]) ∧
    McuEv.cmd MCU_CMD_START_FIRMWARE true ∉
      (mt7927_load_firmware patchOne ramScenario
        [WaitRes.ok 1, WaitRes.timeout]).2 ∧
    McuEv.fwData 8000 ∉
      (mt7927_load_firmware patchOne ramScenario
        [WaitRes.ok 1, WaitRes.timeout]).2 := by
  refine ⟨by decide, by decide, by decide, by decide⟩

/-- Claim C7 (code evaluation at the failing input): mt7927_dma_init on an
all-zero register file with every allocation succeeding returns success and
leaves GLO_CFG with both the TX and RX global DMA enable bits set while the
base-address registers of RX rings 1 and 3 (and TX ring 1) were never
written and still read zero: rings covered by the global enables are left at
base address zero. -/
theorem c7_dma_init_ring_bases :
    (mt7927_dma_init devZero 0x11000 0x12000 0x13000 0x14000 0x15000
      (fun i => 0x100000 + 0x800 * i) (fun i => 0x200000 + 0x800 * i)).1 = 0 ∧
    ((mt7927_dma_init devZero 0x11000 0x12000 0x13000 0x14000 0x15000
      (fun i => 0x100000 + 0x800 * i) (fun i => 0x200000 + 0x800 * i)).2.regs
        MT_WFDMA0_GLO_CFG).testBit 0 = true ∧
    ((mt7927_dma_init devZero 0x11000 0x12000 0x13000 0x14000 0x15000
      (fun i => 0x100000 + 0x800 * i) (fun i => 0x200000 + 0x800 * i)).2.regs
        MT_WFDMA0_GLO_CFG).testBit 2 = true ∧
    (mt7927_dma_init devZero 0x11000 0x12000 0x13000 0x14000 0x15000
      (fun i => 0x100000 + 0x800 * i) (fun i => 0x200000 + 0x800 * i)).2.regs
        (MT_WFDMA0_RX_RING_BASE 1) = 0 ∧
    (mt7927_dma_init devZero 0x11000 0x12000 0x13000 0x14000 0x15000
      (fun i => 0x100000 + 0x800 * i) (fun i => 0x200000 + 0x800 * i)).2.regs
        (MT_WFDMA0_RX_RING_BASE 3) = 0 ∧
    (mt7927_dma_init devZero 0x11000 0x12000 0x13000 0x14000 0x15000
      (fun i => 0x100000 + 0x800 * i) (fun i => 0x200000 + 0x800 * i)).2.regs
        (MT_WFDMA0_TX_RING_BASE 1) = 0 := by
  refine ⟨by decide, by decide, by decide, by decide, by decide, by decide⟩

end MT7927
